import Mathlib

/-!
Shallow embedding of the GST invoice tax-breakdown computation of
`gstbillingapp/views.py` (`invoice_viewer`, together with its helper
`gst_state`).  The computation reads a stored JSON payload, classifies the
invoice (B2B/B2C, INTRA/INTER), computes per-line taxable values, tax values
and CGST/SGST/IGST splits with `Decimal` half-up rounding to two places,
checks HSN digit counts, and aggregates totals.

Modelling conventions:

* Python `Decimal` values are modelled as exact rationals (`ℚ`).  All the
  arithmetic performed by the view (products, the division by 100 and by 2)
  is exact in `Decimal` up to the default 28-significant-digit context, so
  exact rationals are faithful on the value ranges of interest; `quantize`
  with `ROUND_HALF_UP` is modelled by `roundHalfUp2`, and the context-default
  `ROUND_HALF_EVEN` quantize used for the grand total by `roundHalfEven2`.
* A raised (and uncaught) Python exception is modelled by `none`; fallible
  steps return `Option` values which are threaded through the computation.
* JSON scalars stored in the payload are modelled by `JVal` (null, bool,
  number, string).  JSON arrays/objects in scalar positions are outside the
  modelled input space.
* Python `str.strip` is modelled by `pyStrip` (ASCII whitespace).
* Python's Unicode-aware `str.isdigit` is modelled by `pyIsdigit` on the
  character repertoire used in this development: the ASCII digits and the
  superscript digits ¹ ² ³ (all of which Python's `str.isdigit` accepts);
  other Unicode digit characters are not modelled.
* `Decimal(string)` parsing is modelled by `pyDecimalParse`: optional
  surrounding whitespace, an optional sign, a digit string with an optional
  single decimal point, and an optional exponent part.  The special values
  `NaN`/`Infinity` (which `Decimal` accepts but which then raise in
  `quantize`) are folded into the parse-failure case, which is
  observationally identical here (an uncaught exception either way).
-/

/-- JSON scalar values as they can appear in the stored invoice payload. -/
inductive JVal where
  | null : JVal
  | bool : Bool → JVal
  | num : ℚ → JVal
  | str : String → JVal
deriving DecidableEq

/-- Python truthiness of a JSON scalar: `None`, `False`, `0`, and `""` are
falsy, everything else is truthy. -/
def truthy : JVal → Bool
  | JVal.null => false
  | JVal.bool b => b
  | JVal.num q => q != 0
  | JVal.str s => s != ""

/-- ASCII decimal digit test (the spec's notion of digit). -/
def asciiDigit (c : Char) : Bool := '0' ≤ c && c ≤ '9'

/-- Python `str.isdigit` on one character, restricted to the modelled
repertoire: ASCII digits plus the superscript digits ¹ ² ³ (Python's
`str.isdigit` returns `True` for all of these). -/
def pyIsdigit (c : Char) : Bool :=
  asciiDigit c || c == '¹' || c == '²' || c == '³'

/-- Python `s.isdigit()` for a whole string: non-empty and all characters
digits. -/
def pyStrIsdigit (s : String) : Bool := !s.isEmpty && s.toList.all pyIsdigit

/-- Helper for `pyStrip`: drop leading and trailing whitespace characters. -/
def stripList (l : List Char) : List Char :=
  ((l.dropWhile Char.isWhitespace).reverse.dropWhile Char.isWhitespace).reverse

/-- Python `str.strip()` (ASCII whitespace). -/
def pyStrip (s : String) : String := String.mk (stripList s.toList)

/-- Non-empty all-digit character list. -/
def decDigits (l : List Char) : Bool := !l.isEmpty && l.all Char.isDigit

/-- Numeric value of a list of ASCII digit characters. -/
def digitsToNat (l : List Char) : ℕ := l.foldl (fun a c => 10 * a + (c.toNat - 48)) 0

/-- Parse the mantissa part of a `Decimal` literal: digits with an optional
single decimal point, at least one digit in total. -/
def parseDecMantissa (l : List Char) : Option ℚ :=
  match l.span (fun c => c != '.') with
  | (ip, []) => if decDigits ip then some ((digitsToNat ip : ℚ)) else none
  | (ip, _ :: fp) =>
    if (!ip.isEmpty || !fp.isEmpty) && ip.all Char.isDigit && fp.all Char.isDigit
        && fp.all (fun c => c != '.')
    then some ((digitsToNat ip : ℚ) + (digitsToNat fp : ℚ) / (10 : ℚ) ^ fp.length)
    else none

/-- Parse an optionally signed digit string (the exponent of a `Decimal`
literal). -/
def parseSignedDigits (l : List Char) : Option ℤ :=
  match l with
  | '+' :: rest => if decDigits rest then some ((digitsToNat rest : ℤ)) else none
  | '-' :: rest => if decDigits rest then some (-(digitsToNat rest : ℤ)) else none
  | _ => if decDigits l then some ((digitsToNat l : ℤ)) else none

/-- Parse an unsigned `Decimal` literal body: mantissa with an optional
`e`/`E` exponent part. -/
def parseDecCore (l : List Char) : Option ℚ :=
  match l.span (fun c => c != 'e' && c != 'E') with
  | (mant, []) => parseDecMantissa mant
  | (mant, _ :: ex) =>
    match parseDecMantissa mant, parseSignedDigits ex with
    | some m, some e => some (m * (10 : ℚ) ^ e)
    | _, _ => none

/-- Python `Decimal(s)` for a string `s`: strip surrounding whitespace, then
an optional sign followed by the literal body.  `none` models the
`InvalidOperation` exception. -/
def pyDecimalParse (s : String) : Option ℚ :=
  match stripList s.toList with
  | '+' :: rest => parseDecCore rest
  | '-' :: rest => (parseDecCore rest).map (fun q => -q)
  | l => parseDecCore l

/-- Python `Decimal(str(v))` for a truthy JSON scalar `v` (views.py 271-273).
`str` of a number round-trips its decimal literal; `str(True)` is `"True"`,
which `Decimal` rejects. -/
def decimalOfJVal : JVal → Option ℚ
  | JVal.null => none
  | JVal.bool _ => none
  | JVal.num q => some q
  | JVal.str s => pyDecimalParse s

/-- Model of `Decimal(str(it.get(key) or default))` (views.py 271-273): an
absent or falsy field yields the default, a truthy field is coerced through
`Decimal(str(.))`, whose failure (`none`) aborts the whole render. -/
def fieldOrDefault (v : Option JVal) (d : ℚ) : Option ℚ :=
  match v with
  | none => some d
  | some w => if truthy w then decimalOfJVal w else some d

/-- Model of `hsn = it.get("hsn") or ""` followed by iterating over `hsn`
(views.py 274, 294): an absent or falsy field yields `""`; a truthy string is
used as is; iterating over a truthy non-string raises (`none`). -/
def hsnString (v : Option JVal) : Option String :=
  match v with
  | none => some ""
  | some (JVal.str s) => if s != "" then some s else some ""
  | some w => if truthy w then none else some ""

/-- Model of `desc = it.get("description") or ""` (views.py 270): the value
itself when truthy, `""` otherwise; no operation is performed on it. -/
def descVal (v : Option JVal) : JVal :=
  match v with
  | none => JVal.str ""
  | some w => if truthy w then w else JVal.str ""

/-- `Decimal.quantize(Decimal("0.01"), ROUND_HALF_UP)`: round to a multiple
of 1/100, ties away from zero. -/
def roundHalfUp2 (x : ℚ) : ℚ :=
  if 0 ≤ x then (⌊x * 100 + 1 / 2⌋ : ℚ) / 100 else -((⌊-x * 100 + 1 / 2⌋ : ℚ) / 100)

/-- `Decimal.quantize(Decimal("0.01"))` under the default context rounding
`ROUND_HALF_EVEN` (used for the grand total, views.py 312): round to a
multiple of 1/100, ties to even. -/
def roundHalfEven2 (x : ℚ) : ℚ :=
  (if x * 100 - (⌊x * 100⌋ : ℚ) < 1 / 2 then (⌊x * 100⌋ : ℚ)
   else if 1 / 2 < x * 100 - (⌊x * 100⌋ : ℚ) then (⌊x * 100⌋ : ℚ) + 1
   else if Even ⌊x * 100⌋ then (⌊x * 100⌋ : ℚ) else (⌊x * 100⌋ : ℚ) + 1) / 100

/-- Number of cents of a two-decimal monetary value. -/
def centsOf (x : ℚ) : ℤ := ⌊x * 100⌋

/-- Invoice classification: B2B when a buyer GSTIN is present. -/
inductive InvoiceType where
  | B2B : InvoiceType
  | B2C : InvoiceType
deriving DecidableEq

/-- Tax mode: INTRA splits CGST/SGST, INTER charges IGST in full. -/
inductive TaxMode where
  | INTRA : TaxMode
  | INTER : TaxMode
deriving DecidableEq

/-- `invoice_type = "B2B" if buyer_gst else "B2C"` (views.py 242), applied to
the already stripped buyer GSTIN. -/
def invoice_type (buyer_gst : String) : InvoiceType :=
  if buyer_gst ≠ "" then InvoiceType.B2B else InvoiceType.B2C

/-- `gst_state` (views.py 247-250): the two-character prefix when the string
is truthy, has length at least 2, and `gstin[:2].isdigit()`; otherwise
`None`. -/
def gst_state (gstin : String) : Option String :=
  if gstin ≠ "" ∧ 2 ≤ gstin.length ∧ pyStrIsdigit (gstin.take 2) = true then
    some (gstin.take 2)
  else none

/-- `tax_mode = "INTRA" if (s_state and b_state and s_state == b_state) else
"INTER"` (views.py 255). -/
def tax_mode (seller buyer : String) : TaxMode :=
  match gst_state seller, gst_state buyer with
  | some s, some b => if s = b then TaxMode.INTRA else TaxMode.INTER
  | _, _ => TaxMode.INTER

/-- One stored line item: the JSON object fields the view reads.  `none`
means the key is absent. -/
structure Item where
  description : Option JVal := none
  qty : Option JVal := none
  rate : Option JVal := none
  tax_rate : Option JVal := none
  hsn : Option JVal := none
deriving DecidableEq

/-- One entry of the rendered `breakdown` list (views.py 297-310). -/
structure LineBreakdown where
  description : JVal
  qty : ℚ
  rate : ℚ
  tax_percent : ℚ
  taxable_value : ℚ
  tax_value : ℚ
  cgst : ℚ
  sgst : ℚ
  igst : ℚ
  hsn : String
  hsn_warning : Bool
  hsn_recommended : ℕ
deriving DecidableEq

/-- `"".join(ch for ch in hsn if ch.isdigit())` (views.py 294). -/
def hsnDigits (s : String) : String := String.mk (s.toList.filter pyIsdigit)

/-- `recommended = 6 if invoice_type == "B2B" else 4` (views.py 295). -/
def hsnRecommended : InvoiceType → ℕ
  | InvoiceType.B2B => 6
  | InvoiceType.B2C => 4

/-- The body of the per-item loop (views.py 269-310): parse the fields with
defaults, compute taxable value, tax value and the CGST/SGST/IGST split, and
check the HSN digit count.  `none` models an uncaught exception from numeric
coercion or from iterating a non-string HSN. -/
def computeLine (mode : TaxMode) (itype : InvoiceType) (it : Item) : Option LineBreakdown :=
  match fieldOrDefault it.qty 1, fieldOrDefault it.rate 0, fieldOrDefault it.tax_rate 0,
      hsnString it.hsn with
  | some qty, some rate, some tax_percent, some hsn =>
    some { description := descVal it.description
           qty := qty
           rate := rate
           tax_percent := tax_percent
           taxable_value := roundHalfUp2 (qty * rate)
           tax_value := roundHalfUp2 (roundHalfUp2 (qty * rate) * tax_percent / 100)
           cgst := if mode = TaxMode.INTRA then
               roundHalfUp2 (roundHalfUp2 (roundHalfUp2 (qty * rate) * tax_percent / 100) / 2)
             else 0
           sgst := if mode = TaxMode.INTRA then
               roundHalfUp2 (roundHalfUp2 (roundHalfUp2 (qty * rate) * tax_percent / 100) / 2)
             else 0
           igst := if mode = TaxMode.INTRA then 0
             else roundHalfUp2 (roundHalfUp2 (qty * rate) * tax_percent / 100)
           hsn := hsn
           hsn_warning := decide ((hsnDigits hsn).length < hsnRecommended itype)
           hsn_recommended := hsnRecommended itype }
  | _, _, _, _ => none

/-- The running totals of the loop (views.py 263-267). -/
structure Totals where
  total_taxable : ℚ := 0
  total_tax : ℚ := 0
  total_cgst : ℚ := 0
  total_sgst : ℚ := 0
  total_igst : ℚ := 0
deriving DecidableEq

/-- The accumulations of one loop iteration (views.py 284-291): taxable and
tax always accumulate; CGST/SGST accumulate only in the INTRA branch and
IGST only in the INTER branch, exactly as in the source. -/
def stepTotals (mode : TaxMode) (acc : Totals) (b : LineBreakdown) : Totals :=
  { total_taxable := acc.total_taxable + b.taxable_value
    total_tax := acc.total_tax + b.tax_value
    total_cgst := if mode = TaxMode.INTRA then acc.total_cgst + b.cgst else acc.total_cgst
    total_sgst := if mode = TaxMode.INTRA then acc.total_sgst + b.sgst else acc.total_sgst
    total_igst := if mode = TaxMode.INTRA then acc.total_igst else acc.total_igst + b.igst }

/-- The `for it in items` loop (views.py 269-310): build the breakdown list
in order while accumulating the totals. -/
def processItems (mode : TaxMode) (itype : InvoiceType) :
    List Item → Totals → Option (List LineBreakdown × Totals)
  | [], acc => some ([], acc)
  | it :: rest, acc =>
    match computeLine mode itype it with
    | none => none
    | some b =>
      match processItems mode itype rest (stepTotals mode acc b) with
      | none => none
      | some (bs, tot) => some (b :: bs, tot)

/-- Everything the view hands to the template that depends on the tax
computation (views.py 320-337). -/
structure InvoiceResult where
  invoice_type : InvoiceType
  tax_mode : TaxMode
  breakdown : List LineBreakdown
  total_taxable : ℚ
  total_tax : ℚ
  total_cgst : ℚ
  total_sgst : ℚ
  total_igst : ℚ
  grand_total : ℚ
deriving DecidableEq

/-- The breakdown computation for resolved seller and buyer GSTINs and an
extracted item list: classify, run the loop, and quantize the grand total
(views.py 242-312). -/
def computeInvoice (seller buyer : String) (items : List Item) : Option InvoiceResult :=
  match processItems (tax_mode seller buyer) (invoice_type buyer) items {} with
  | none => none
  | some (bs, tot) =>
    some { invoice_type := invoice_type buyer
           tax_mode := tax_mode seller buyer
           breakdown := bs
           total_taxable := tot.total_taxable
           total_tax := tot.total_tax
           total_cgst := tot.total_cgst
           total_sgst := tot.total_sgst
           total_igst := tot.total_igst
           grand_total := roundHalfEven2 (tot.total_taxable + tot.total_tax) }

/-- `seller_gst = (user_profile.business_gst or "").strip()` (views.py 233);
`none` models a NULL business GSTIN. -/
def resolveSellerGst (business_gst : Option String) : String :=
  pyStrip (business_gst.getD "")

/-- The fallback branch `invoice_data.get("customer_gst", "").strip()`
(views.py 239): absent key yields `""`; a stored string is stripped; calling
`.strip()` on a stored null/number/bool raises (`none`). -/
def fallbackBuyer (fallback : Option JVal) : Option String :=
  match fallback with
  | none => some ""
  | some (JVal.str s) => some (pyStrip s)
  | some _ => none

/-- Buyer GSTIN resolution (views.py 235-239): the customer record's GSTIN
when present and truthy, otherwise the stored JSON fallback field. -/
def resolveBuyerGst (customer_gst : Option String) (fallback : Option JVal) : Option String :=
  match customer_gst with
  | some s => if s ≠ "" then some (pyStrip s) else fallbackBuyer fallback
  | none => fallbackBuyer fallback

/-- First truthy list among the two stored keys, else `[]`. -/
def orElseList (a : Option (List Item)) (b : List Item) : List Item :=
  match a with
  | some l => if l.isEmpty then b else l
  | none => b

/-- `items = invoice_data.get("invoice_items") or invoice_data.get("items")
or []` (views.py 260), for payloads whose item fields, when present, are
arrays of objects. -/
def extractItems (invoice_items items : Option (List Item)) : List Item :=
  orElseList invoice_items (orElseList items [])

/-- The full modelled pipeline of `invoice_viewer` (views.py 233-312):
resolve the GSTINs, extract the items, and compute the breakdown.  `none`
models an uncaught exception. -/
def invoiceViewer (business_gst customer_gst : Option String) (fallback_customer_gst : Option JVal)
    (invoice_items items : Option (List Item)) : Option InvoiceResult :=
  match resolveBuyerGst customer_gst fallback_customer_gst with
  | none => none
  | some buyer =>
    computeInvoice (resolveSellerGst business_gst) buyer (extractItems invoice_items items)

/-- Modelled from the spec (C3): the spec's INTRA condition — both GSTINs at
least two characters long, with the first two characters ASCII digits, and
equal two-character prefixes.  Stated for comparison with `tax_mode`. -/
def specIntraCondition (s b : String) : Prop :=
  2 ≤ s.length ∧ 2 ≤ b.length ∧ (s.take 2).toList.all asciiDigit = true ∧
    (b.take 2).toList.all asciiDigit = true ∧ s.take 2 = b.take 2

/-- Modelled from the spec (C7): the spec's HSN warning — the count of ASCII
digit characters is below the recommended count.  Stated for comparison with
the computed `hsn_warning`. -/
def specHsnWarningAscii (hsn : String) (itype : InvoiceType) : Bool :=
  decide ((hsn.toList.filter asciiDigit).length < hsnRecommended itype)

/-- Line item whose `qty` is a truthy non-numeric string (C1). -/
def c1Item : Item := { qty := some (JVal.str "abc") }

/-- Line item whose `qty` is the falsy 0 next to a normal rate 100 (C1
witness, first conjunct). -/
def c1WItem : Item := { qty := some (JVal.num 0), rate := some (JVal.num 100) }

/-- Line item whose `rate` is null next to a normal qty 2 (C1 witness,
second conjunct). -/
def c1RItem : Item := { qty := some (JVal.num 2), rate := some JVal.null }

/-- Spec example line item: qty 2, rate 100, tax 18, HSN "1234" (C4). -/
def c4Item : Item :=
  { qty := some (JVal.num 2), rate := some (JVal.num 100), tax_rate := some (JVal.num 18),
    hsn := some (JVal.str "1234") }

/-- The breakdown the view computes for `c4Item` in INTRA/B2B. -/
def c4Break : LineBreakdown :=
  { description := JVal.str "", qty := 2, rate := 100, tax_percent := 18,
    taxable_value := 200, tax_value := 36, cgst := 18, sgst := 18, igst := 0,
    hsn := "1234", hsn_warning := true, hsn_recommended := 6 }

/-- Line item for the C5 witness: qty 1, rate 50, tax 18. -/
def c5Item : Item :=
  { qty := some (JVal.num 1), rate := some (JVal.num 50), tax_rate := some (JVal.num 18) }

/-- The breakdown the view computes for `c5Item` in INTRA/B2B. -/
def c5Break : LineBreakdown :=
  { description := JVal.str "", qty := 1, rate := 50, tax_percent := 18,
    taxable_value := 50, tax_value := 9, cgst := 9 / 2, sgst := 9 / 2, igst := 0,
    hsn := "", hsn_warning := true, hsn_recommended := 6 }

/-- Line item whose HSN is four superscript-two characters (C7). -/
def c7Item : Item := { hsn := some (JVal.str "²²²²") }

/-- The breakdown the view computes for `c7Item` in INTER/B2C: Python's
`isdigit` counts the four superscripts as digits, so no warning is raised. -/
def c7CexBreak : LineBreakdown :=
  { description := JVal.str "", qty := 1, rate := 0, tax_percent := 0,
    taxable_value := 0, tax_value := 0, cgst := 0, sgst := 0, igst := 0,
    hsn := "²²²²", hsn_warning := false, hsn_recommended := 4 }

/-- Line item for the C7 witness: HSN "1234". -/
def c7WItem : Item := { hsn := some (JVal.str "1234") }

/-- The breakdown the view computes for `c7WItem` in INTER/B2C. -/
def c7WBreak : LineBreakdown :=
  { description := JVal.str "", qty := 1, rate := 0, tax_percent := 0,
    taxable_value := 0, tax_value := 0, cgst := 0, sgst := 0, igst := 0,
    hsn := "1234", hsn_warning := false, hsn_recommended := 4 }

/-- Line item with stored quantity exactly 0 and rate 5 (C10). -/
def c10Item : Item := { qty := some (JVal.num 0), rate := some (JVal.num 5) }

/-- The breakdown the view computes for `c10Item` in INTER/B2C. -/
def c10Break : LineBreakdown :=
  { description := JVal.str "", qty := 1, rate := 5, tax_percent := 0,
    taxable_value := 5, tax_value := 0, cgst := 0, sgst := 0, igst := 0,
    hsn := "", hsn_warning := true, hsn_recommended := 4 }

/-- The breakdown the view computes for `c4Item` in INTER/B2B (C6 witness). -/
def c6Break : LineBreakdown :=
  { description := JVal.str "", qty := 2, rate := 100, tax_percent := 18,
    taxable_value := 200, tax_value := 36, cgst := 0, sgst := 0, igst := 36,
    hsn := "1234", hsn_warning := true, hsn_recommended := 6 }

/-- The invoice result for a single `c4Item` with unrelated GSTIN states
(INTER), used by the C6 witness. -/
def c6Res : InvoiceResult :=
  { invoice_type := InvoiceType.B2B, tax_mode := TaxMode.INTER,
    breakdown := [c6Break], total_taxable := 200, total_tax := 36,
    total_cgst := 0, total_sgst := 0, total_igst := 36, grand_total := 236 }

/-! Helper lemmas: evaluation of the two rounding functions, the cent-grid
structure of rounded values, and inversion principles for the loop. -/

theorem floor_add_half (m : ℤ) : ⌊(m : ℚ) + 1 / 2⌋ = m := by
  rw [Int.floor_eq_iff]
  constructor
  · norm_num
  · norm_num

theorem roundHalfUp2_cent (m : ℤ) : roundHalfUp2 ((m : ℚ) / 100) = (m : ℚ) / 100 := by
  have h1 : ((m : ℚ) / 100) * 100 = (m : ℚ) := by field_simp
  have h2 : (-((m : ℚ) / 100)) * 100 = ((-m : ℤ) : ℚ) := by push_cast; field_simp
  unfold roundHalfUp2
  by_cases h : 0 ≤ (m : ℚ) / 100
  · simp only [h, if_true, h1, floor_add_half]
  · simp only [h, if_false, h2, floor_add_half]
    push_cast
    ring

theorem roundHalfUp2_intCast (m : ℤ) : roundHalfUp2 ((m : ℚ)) = (m : ℚ) := by
  have h : ((m : ℚ)) = ((100 * m : ℤ) : ℚ) / 100 := by push_cast; ring
  rw [h, roundHalfUp2_cent]

theorem roundHalfEven2_cent (m : ℤ) : roundHalfEven2 ((m : ℚ) / 100) = (m : ℚ) / 100 := by
  have h1 : ((m : ℚ) / 100) * 100 = (m : ℚ) := by field_simp
  unfold roundHalfEven2
  rw [h1]
  rw [Int.floor_intCast]
  norm_num

theorem roundHalfEven2_zero : roundHalfEven2 0 = 0 := by
  have h := roundHalfEven2_cent 0
  norm_num at h
  exact h

theorem roundHalfUp2_neg (x : ℚ) : roundHalfUp2 (-x) = -roundHalfUp2 x := by
  unfold roundHalfUp2
  by_cases hx : 0 ≤ x
  · by_cases hx' : 0 ≤ -x
    · have hx0 : x = 0 := le_antisymm (by linarith) hx
      subst hx0
      norm_num
    · simp only [hx, hx', if_true, if_false, neg_neg]
  · have hx' : 0 ≤ -x := by linarith
    simp only [hx, hx', if_true, if_false, neg_neg]

theorem roundHalfUp2_half_cent (m : ℤ) (h : 0 ≤ m) :
    roundHalfUp2 ((m : ℚ) / 100 / 2) = (((m + 1) / 2 : ℤ) : ℚ) / 100 := by
  have h0 : (0 : ℚ) ≤ (m : ℚ) / 100 / 2 := by positivity
  have h1 : ((m : ℚ) / 100 / 2) * 100 + 1 / 2 = ((m + 1 : ℤ) : ℚ) / ((2 : ℕ) : ℚ) := by
    push_cast
    ring
  unfold roundHalfUp2
  rw [if_pos h0, h1, Rat.floor_intCast_div_natCast]
  norm_num

theorem split_diff (m : ℤ) :
    ∃ k : ℤ, roundHalfUp2 ((m : ℚ) / 100 / 2) + roundHalfUp2 ((m : ℚ) / 100 / 2) - (m : ℚ) / 100
        = (k : ℚ) / 100 ∧ -1 ≤ k ∧ k ≤ 1 ∧ (k = 0 ↔ Even m) := by
  rcases le_or_lt 0 m with h | h
  · refine ⟨2 * ((m + 1) / 2) - m, ?_, by omega, by omega, ?_⟩
    · rw [roundHalfUp2_half_cent m h]
      push_cast
      ring
    · rw [Int.even_iff]
      omega
  · have hn : (0 : ℤ) ≤ -m := by omega
    have hrw : (m : ℚ) / 100 / 2 = -(((-m : ℤ) : ℚ) / 100 / 2) := by push_cast; ring
    refine ⟨-(2 * ((-m + 1) / 2) - (-m)), ?_, by omega, by omega, ?_⟩
    · rw [hrw, roundHalfUp2_neg, roundHalfUp2_half_cent _ hn]
      push_cast
      ring
    · rw [Int.even_iff]
      omega

theorem roundHalfUp2_exists_cent (x : ℚ) : ∃ m : ℤ, roundHalfUp2 x = (m : ℚ) / 100 := by
  unfold roundHalfUp2
  by_cases hx : 0 ≤ x
  · exact ⟨⌊x * 100 + 1 / 2⌋, by rw [if_pos hx]⟩
  · exact ⟨-⌊-x * 100 + 1 / 2⌋, by rw [if_neg hx]; push_cast; ring⟩

theorem centsOf_cent (m : ℤ) : centsOf ((m : ℚ) / 100) = m := by
  unfold centsOf
  have h1 : ((m : ℚ) / 100) * 100 = (m : ℚ) := by field_simp
  rw [h1, Int.floor_intCast]

theorem sum_cent_list (xs : List ℚ) (h : ∀ x ∈ xs, ∃ m : ℤ, x = (m : ℚ) / 100) :
    ∃ m : ℤ, xs.sum = (m : ℚ) / 100 := by
  induction xs with
  | nil => exact ⟨0, by norm_num⟩
  | cons a l ih =>
    obtain ⟨m1, hm1⟩ := h a (List.mem_cons_self a l)
    obtain ⟨m2, hm2⟩ := ih (fun x hx => h x (List.mem_cons_of_mem a hx))
    exact ⟨m1 + m2, by rw [List.sum_cons, hm1, hm2]; push_cast; ring⟩

theorem computeLine_inv (mode : TaxMode) (itype : InvoiceType) (it : Item) (b : LineBreakdown)
    (h : computeLine mode itype it = some b) :
    b.taxable_value = roundHalfUp2 (b.qty * b.rate) ∧
    b.tax_value = roundHalfUp2 (b.taxable_value * b.tax_percent / 100) ∧
    (mode = TaxMode.INTRA →
      b.cgst = roundHalfUp2 (b.tax_value / 2) ∧ b.sgst = roundHalfUp2 (b.tax_value / 2) ∧
        b.igst = 0) ∧
    (mode = TaxMode.INTER → b.igst = b.tax_value ∧ b.cgst = 0 ∧ b.sgst = 0) ∧
    b.hsn_recommended = hsnRecommended itype ∧
    (b.hsn_warning = true ↔ (hsnDigits b.hsn).length < hsnRecommended itype) := by
  cases hq : fieldOrDefault it.qty 1 with
  | none => simp [computeLine, hq] at h
  | some qty =>
  cases hr : fieldOrDefault it.rate 0 with
  | none => simp [computeLine, hq, hr] at h
  | some rate =>
  cases ht : fieldOrDefault it.tax_rate 0 with
  | none => simp [computeLine, hq, hr, ht] at h
  | some tp =>
  cases hh : hsnString it.hsn with
  | none => simp [computeLine, hq, hr, ht, hh] at h
  | some hsn =>
  simp only [computeLine, hq, hr, ht, hh, Option.some.injEq] at h
  subst h
  refine ⟨rfl, rfl, ?_, ?_, rfl, ?_⟩
  · intro hm
    subst hm
    simp
  · intro hm
    subst hm
    simp
  · simp

theorem mode_eq_inter (mode : TaxMode) (h : mode ≠ TaxMode.INTRA) : mode = TaxMode.INTER := by
  cases mode
  · exact absurd rfl h
  · rfl

theorem computeLine_cgst_zero (mode : TaxMode) (itype : InvoiceType) (it : Item)
    (b : LineBreakdown) (h : computeLine mode itype it = some b) (hm : mode ≠ TaxMode.INTRA) :
    b.cgst = 0 ∧ b.sgst = 0 := by
  obtain ⟨-, -, -, h4, -, -⟩ := computeLine_inv mode itype it b h
  obtain ⟨-, hc, hs⟩ := h4 (mode_eq_inter mode hm)
  exact ⟨hc, hs⟩

theorem computeLine_igst_zero (mode : TaxMode) (itype : InvoiceType) (it : Item)
    (b : LineBreakdown) (h : computeLine mode itype it = some b) (hm : mode = TaxMode.INTRA) :
    b.igst = 0 := by
  obtain ⟨-, -, h3, -, -, -⟩ := computeLine_inv mode itype it b h
  exact (h3 hm).2.2

theorem processItems_totals (mode : TaxMode) (itype : InvoiceType) :
    ∀ (l : List Item) (acc : Totals) (bs : List LineBreakdown) (tot : Totals),
      processItems mode itype l acc = some (bs, tot) →
      tot.total_taxable = acc.total_taxable + (bs.map LineBreakdown.taxable_value).sum ∧
      tot.total_tax = acc.total_tax + (bs.map LineBreakdown.tax_value).sum ∧
      tot.total_cgst = acc.total_cgst + (bs.map LineBreakdown.cgst).sum ∧
      tot.total_sgst = acc.total_sgst + (bs.map LineBreakdown.sgst).sum ∧
      tot.total_igst = acc.total_igst + (bs.map LineBreakdown.igst).sum := by
  intro l
  induction l with
  | nil =>
    intro acc bs tot h
    simp only [processItems, Option.some.injEq, Prod.mk.injEq] at h
    obtain ⟨h1, h2⟩ := h
    subst h1
    subst h2
    simp
  | cons it rest ih =>
    intro acc bs tot h
    simp only [processItems] at h
    cases hc : computeLine mode itype it with
    | none => simp [hc] at h
    | some b =>
      simp only [hc] at h
      cases hp : processItems mode itype rest (stepTotals mode acc b) with
      | none => simp [hp] at h
      | some p =>
        obtain ⟨bs', tot'⟩ := p
        simp only [hp] at h
        simp only [Option.some.injEq, Prod.mk.injEq] at h
        obtain ⟨hbs, htot⟩ := h
        subst hbs
        subst htot
        obtain ⟨i1, i2, i3, i4, i5⟩ := ih _ _ _ hp
        simp only [stepTotals] at i1 i2 i3 i4 i5
        simp only [List.map_cons, List.sum_cons]
        by_cases hm : mode = TaxMode.INTRA
        · have hiz : b.igst = 0 := computeLine_igst_zero mode itype it b hc hm
          rw [if_pos hm] at i3 i4 i5
          refine ⟨by rw [i1]; ring, by rw [i2]; ring, by rw [i3]; ring, by rw [i4]; ring, ?_⟩
          rw [i5, hiz]
          ring
        · obtain ⟨hcz, hsz⟩ := computeLine_cgst_zero mode itype it b hc hm
          rw [if_neg hm] at i3 i4 i5
          refine ⟨by rw [i1]; ring, by rw [i2]; ring, ?_, ?_, by rw [i5]; ring⟩
          · rw [i3, hcz]
            ring
          · rw [i4, hsz]
            ring

theorem processItems_mem (mode : TaxMode) (itype : InvoiceType) :
    ∀ (l : List Item) (acc : Totals) (bs : List LineBreakdown) (tot : Totals),
      processItems mode itype l acc = some (bs, tot) →
      ∀ b ∈ bs, ∃ it ∈ l, computeLine mode itype it = some b := by
  intro l
  induction l with
  | nil =>
    intro acc bs tot h
    simp only [processItems, Option.some.injEq, Prod.mk.injEq] at h
    obtain ⟨h1, -⟩ := h
    subst h1
    intro b hb
    exact absurd hb (List.not_mem_nil b)
  | cons it rest ih =>
    intro acc bs tot h
    simp only [processItems] at h
    cases hc : computeLine mode itype it with
    | none => simp [hc] at h
    | some b0 =>
      simp only [hc] at h
      cases hp : processItems mode itype rest (stepTotals mode acc b0) with
      | none => simp [hp] at h
      | some p =>
        obtain ⟨bs', tot'⟩ := p
        simp only [hp] at h
        simp only [Option.some.injEq, Prod.mk.injEq] at h
        obtain ⟨hbs, -⟩ := h
        subst hbs
        intro b hb
        rcases List.mem_cons.1 hb with hb0 | hbr
        · exact ⟨it, List.mem_cons_self it rest, hb0 ▸ hc⟩
        · obtain ⟨it', hit', hcl⟩ := ih _ _ _ hp b hbr
          exact ⟨it', List.mem_cons_of_mem it hit', hcl⟩

theorem ne_empty_of_two_le (g : String) (h : 2 ≤ g.length) : g ≠ "" := by
  intro he
  subst he
  exact absurd h (by decide)

theorem gst_state_eq_some_iff (g p : String) :
    gst_state g = some p ↔
      (2 ≤ g.length ∧ pyStrIsdigit (g.take 2) = true ∧ p = g.take 2) := by
  unfold gst_state
  by_cases hc : g ≠ "" ∧ 2 ≤ g.length ∧ pyStrIsdigit (g.take 2) = true
  · rw [if_pos hc]
    simp only [Option.some.injEq]
    constructor
    · intro he
      exact ⟨hc.2.1, hc.2.2, he.symm⟩
    · intro he
      exact he.2.2.symm
  · rw [if_neg hc]
    constructor
    · intro he
      exact absurd he (by simp)
    · intro he
      exact absurd ⟨ne_empty_of_two_le g he.1, he.1, he.2.1⟩ hc

theorem tax_mode_intra_iff (s b : String) :
    tax_mode s b = TaxMode.INTRA ↔ ∃ p, gst_state s = some p ∧ gst_state b = some p := by
  unfold tax_mode
  cases hs : gst_state s with
  | none => simp
  | some ps =>
    cases hb : gst_state b with
    | none => simp
    | some pb =>
      by_cases he : ps = pb
      · subst he
        simp
      · simp only [if_neg he]
        constructor
        · intro h
          exact absurd h (by simp)
        · intro h
          obtain ⟨p, hp1, hp2⟩ := h
          rw [Option.some.injEq] at hp1 hp2
          exact absurd (hp1.trans hp2.symm) he

theorem computeLine_isSome (mode : TaxMode) (itype : InvoiceType) (it : Item)
    (h1 : (fieldOrDefault it.qty 1).isSome) (h2 : (fieldOrDefault it.rate 0).isSome)
    (h3 : (fieldOrDefault it.tax_rate 0).isSome) (h4 : (hsnString it.hsn).isSome) :
    (computeLine mode itype it).isSome := by
  obtain ⟨q, hq⟩ := Option.isSome_iff_exists.1 h1
  obtain ⟨r, hr⟩ := Option.isSome_iff_exists.1 h2
  obtain ⟨t, ht⟩ := Option.isSome_iff_exists.1 h3
  obtain ⟨hs, hh⟩ := Option.isSome_iff_exists.1 h4
  simp [computeLine, hq, hr, ht, hh]

theorem processItems_isSome (mode : TaxMode) (itype : InvoiceType) :
    ∀ (l : List Item) (acc : Totals),
      (∀ it ∈ l, (computeLine mode itype it).isSome) →
      (processItems mode itype l acc).isSome := by
  intro l
  induction l with
  | nil => intro acc h; simp [processItems]
  | cons it rest ih =>
    intro acc h
    obtain ⟨b, hb⟩ := Option.isSome_iff_exists.1 (h it (List.mem_cons_self it rest))
    have hrest := ih (stepTotals mode acc b) (fun x hx => h x (List.mem_cons_of_mem it hx))
    obtain ⟨p, hp⟩ := Option.isSome_iff_exists.1 hrest
    obtain ⟨bs, tot⟩ := p
    simp [processItems, hb, hp]

theorem computeInvoice_isSome (seller buyer : String) (items : List Item)
    (h : ∀ it ∈ items, (computeLine (tax_mode seller buyer) (invoice_type buyer) it).isSome) :
    (computeInvoice seller buyer items).isSome := by
  have hp := processItems_isSome (tax_mode seller buyer) (invoice_type buyer) items {} h
  obtain ⟨p, hpe⟩ := Option.isSome_iff_exists.1 hp
  obtain ⟨bs, tot⟩ := p
  simp [computeInvoice, hpe]

theorem resolveBuyer_isSome (cg : Option String) (fb : Option JVal)
    (hfb : fb = none ∨ ∃ s, fb = some (JVal.str s)) : (resolveBuyerGst cg fb).isSome := by
  have hf : (fallbackBuyer fb).isSome := by
    rcases hfb with h | ⟨s, h⟩
    · subst h; simp [fallbackBuyer]
    · subst h; simp [fallbackBuyer]
  cases cg with
  | none => simpa [resolveBuyerGst] using hf
  | some s =>
    by_cases hs : s ≠ ""
    · simp [resolveBuyerGst, hs]
    · simpa [resolveBuyerGst, hs] using hf

theorem computeInvoice_nil (seller buyer : String) :
    computeInvoice seller buyer [] =
      some { invoice_type := invoice_type buyer, tax_mode := tax_mode seller buyer,
             breakdown := [], total_taxable := 0, total_tax := 0, total_cgst := 0,
             total_sgst := 0, total_igst := 0, grand_total := 0 } := by
  simp [computeInvoice, processItems, roundHalfEven2_zero]

theorem fod_num (q d : ℚ) (h : q ≠ 0) : fieldOrDefault (some (JVal.num q)) d = some q := by
  simp [fieldOrDefault, truthy, decimalOfJVal, h]

theorem fod_num_zero (d : ℚ) : fieldOrDefault (some (JVal.num 0)) d = some d := by
  simp [fieldOrDefault, truthy]

theorem fod_absent (d : ℚ) : fieldOrDefault none d = some d := rfl

theorem rhu_eval (x : ℚ) (m : ℤ) (h : x = (m : ℚ) / 100) (y : ℚ) (hy : (m : ℚ) / 100 = y) :
    roundHalfUp2 x = y := by
  rw [h, roundHalfUp2_cent, hy]

theorem c4_comp : computeLine TaxMode.INTRA InvoiceType.B2B c4Item = some c4Break := by
  have hq : fieldOrDefault (some (JVal.num 2)) 1 = some 2 := fod_num 2 1 (by norm_num)
  have hr : fieldOrDefault (some (JVal.num 100)) 0 = some 100 := fod_num 100 0 (by norm_num)
  have ht : fieldOrDefault (some (JVal.num 18)) 0 = some 18 := fod_num 18 0 (by norm_num)
  have hh : hsnString (some (JVal.str "1234")) = some "1234" := by decide
  have e1 : roundHalfUp2 ((2 : ℚ) * 100) = 200 := rhu_eval _ 20000 (by norm_num) _ (by norm_num)
  have e2 : roundHalfUp2 ((200 : ℚ) * 18 / 100) = 36 := rhu_eval _ 3600 (by norm_num) _ (by norm_num)
  have e3 : roundHalfUp2 ((36 : ℚ) / 2) = 18 := rhu_eval _ 1800 (by norm_num) _ (by norm_num)
  simp only [c4Item, computeLine, hq, hr, ht, hh, e1, e2, e3]
  simp [c4Break, descVal, hsnDigits, hsnRecommended]
  decide

theorem c5_comp : computeLine TaxMode.INTRA InvoiceType.B2B c5Item = some c5Break := by
  have hq : fieldOrDefault (some (JVal.num 1)) 1 = some 1 := fod_num 1 1 (by norm_num)
  have hr : fieldOrDefault (some (JVal.num 50)) 0 = some 50 := fod_num 50 0 (by norm_num)
  have ht : fieldOrDefault (some (JVal.num 18)) 0 = some 18 := fod_num 18 0 (by norm_num)
  have hh : hsnString (none : Option JVal) = some "" := rfl
  have e1 : roundHalfUp2 ((1 : ℚ) * 50) = 50 := rhu_eval _ 5000 (by norm_num) _ (by norm_num)
  have e2 : roundHalfUp2 ((50 : ℚ) * 18 / 100) = 9 := rhu_eval _ 900 (by norm_num) _ (by norm_num)
  have e3 : roundHalfUp2 ((9 : ℚ) / 2) = 9 / 2 := rhu_eval _ 450 (by norm_num) _ (by norm_num)
  simp only [c5Item, computeLine, hq, hr, ht, hh, e1, e2, e3]
  simp [c5Break, descVal, hsnDigits, hsnRecommended]

theorem c6_comp : computeLine TaxMode.INTER InvoiceType.B2B c4Item = some c6Break := by
  have hq : fieldOrDefault (some (JVal.num 2)) 1 = some 2 := fod_num 2 1 (by norm_num)
  have hr : fieldOrDefault (some (JVal.num 100)) 0 = some 100 := fod_num 100 0 (by norm_num)
  have ht : fieldOrDefault (some (JVal.num 18)) 0 = some 18 := fod_num 18 0 (by norm_num)
  have hh : hsnString (some (JVal.str "1234")) = some "1234" := by decide
  have e1 : roundHalfUp2 ((2 : ℚ) * 100) = 200 := rhu_eval _ 20000 (by norm_num) _ (by norm_num)
  have e2 : roundHalfUp2 ((200 : ℚ) * 18 / 100) = 36 := rhu_eval _ 3600 (by norm_num) _ (by norm_num)
  simp only [c4Item, computeLine, hq, hr, ht, hh, e1, e2]
  simp [c6Break, descVal, hsnDigits, hsnRecommended]
  decide

theorem c7_cex_comp : computeLine TaxMode.INTER InvoiceType.B2C c7Item = some c7CexBreak := by
  have hh : hsnString (some (JVal.str "²²²²")) = some "²²²²" := by decide
  have e1 : roundHalfUp2 ((1 : ℚ) * 0) = 0 := rhu_eval _ 0 (by norm_num) _ (by norm_num)
  have e2 : roundHalfUp2 ((0 : ℚ) * 0 / 100) = 0 := rhu_eval _ 0 (by norm_num) _ (by norm_num)
  simp only [c7Item, computeLine, fod_absent, hh, e1, e2]
  simp [c7CexBreak, descVal, hsnDigits, hsnRecommended]
  decide

theorem c7_w_comp : computeLine TaxMode.INTER InvoiceType.B2C c7WItem = some c7WBreak := by
  have hh : hsnString (some (JVal.str "1234")) = some "1234" := by decide
  have e1 : roundHalfUp2 ((1 : ℚ) * 0) = 0 := rhu_eval _ 0 (by norm_num) _ (by norm_num)
  have e2 : roundHalfUp2 ((0 : ℚ) * 0 / 100) = 0 := rhu_eval _ 0 (by norm_num) _ (by norm_num)
  simp only [c7WItem, computeLine, fod_absent, hh, e1, e2]
  simp [c7WBreak, descVal, hsnDigits, hsnRecommended]
  decide

theorem c10_comp : computeLine TaxMode.INTER InvoiceType.B2C c10Item = some c10Break := by
  have hq : fieldOrDefault (some (JVal.num 0)) 1 = some 1 := fod_num_zero 1
  have hr : fieldOrDefault (some (JVal.num 5)) 0 = some 5 := fod_num 5 0 (by norm_num)
  have e1 : roundHalfUp2 ((1 : ℚ) * 5) = 5 := rhu_eval _ 500 (by norm_num) _ (by norm_num)
  have e2 : roundHalfUp2 ((5 : ℚ) * 0 / 100) = 0 := rhu_eval _ 0 (by norm_num) _ (by norm_num)
  have hh : hsnString (none : Option JVal) = some "" := rfl
  simp only [c10Item, computeLine, hq, hr, fod_absent, hh, e1, e2]
  simp [c10Break, descVal, hsnDigits, hsnRecommended]

theorem c6_invoice_comp :
    computeInvoice "27AAAA0000A1Z5" "09BBBB1111B1Z6" [c4Item] = some c6Res := by
  have hm : tax_mode "27AAAA0000A1Z5" "09BBBB1111B1Z6" = TaxMode.INTER := by decide
  have hi : invoice_type "09BBBB1111B1Z6" = InvoiceType.B2B := by decide
  have hg : roundHalfEven2 (236 : ℚ) = 236 := by
    rw [show (236 : ℚ) = ((23600 : ℤ) : ℚ) / 100 by norm_num, roundHalfEven2_cent]
  simp only [computeInvoice, hm, hi, processItems, c6_comp, stepTotals]
  simp only [c6Res, c6Break, Option.some.injEq]
  norm_num [hg]
  decide


theorem computeLine_fields (mode : TaxMode) (itype : InvoiceType) (it : Item) (b : LineBreakdown)
    (h : computeLine mode itype it = some b) :
    fieldOrDefault it.qty 1 = some b.qty ∧ fieldOrDefault it.rate 0 = some b.rate ∧
    fieldOrDefault it.tax_rate 0 = some b.tax_percent ∧ hsnString it.hsn = some b.hsn := by
  cases hq : fieldOrDefault it.qty 1 with
  | none => simp [computeLine, hq] at h
  | some qty =>
  cases hr : fieldOrDefault it.rate 0 with
  | none => simp [computeLine, hq, hr] at h
  | some rate =>
  cases ht : fieldOrDefault it.tax_rate 0 with
  | none => simp [computeLine, hq, hr, ht] at h
  | some tp =>
  cases hh : hsnString it.hsn with
  | none => simp [computeLine, hq, hr, ht, hh] at h
  | some hsn =>
  simp only [computeLine, hq, hr, ht, hh, Option.some.injEq] at h
  subst h
  exact ⟨rfl, rfl, rfl, rfl⟩

/-- C1 counterexample: the claim says a field that fails numeric coercion is
replaced by its default and still yields a `LineBreakdown`.  On the line item
whose `qty` is the truthy non-numeric string "abc", the view instead raises
an uncaught `InvalidOperation` from `Decimal(str("abc"))` (modelled by
`none`): no `LineBreakdown` is produced and the whole render fails. -/
theorem c1_counterexample : computeLine TaxMode.INTER InvoiceType.B2C c1Item = none := by
  decide

/-- C1 (amended): each of the `qty`, `rate` and `tax_rate` fields,
individually, is replaced by its default (1 for qty, 0 for rate and
tax_percent) when it is missing, null, or otherwise falsy, and a
`LineBreakdown` carrying that default is still produced for the line —
whatever the other fields hold, provided they themselves coerce; a present,
truthy value that fails numeric coercion instead raises an uncaught
exception (see the counterexample). -/
theorem c1_theorem (mode : TaxMode) (itype : InvoiceType) (it : Item) :
    ((it.qty = none ∨ ∃ v, it.qty = some v ∧ truthy v = false) →
      (fieldOrDefault it.rate 0).isSome → (fieldOrDefault it.tax_rate 0).isSome →
      (hsnString it.hsn).isSome →
      ∃ b, computeLine mode itype it = some b ∧ b.qty = 1) ∧
    ((it.rate = none ∨ ∃ v, it.rate = some v ∧ truthy v = false) →
      (fieldOrDefault it.qty 1).isSome → (fieldOrDefault it.tax_rate 0).isSome →
      (hsnString it.hsn).isSome →
      ∃ b, computeLine mode itype it = some b ∧ b.rate = 0) ∧
    ((it.tax_rate = none ∨ ∃ v, it.tax_rate = some v ∧ truthy v = false) →
      (fieldOrDefault it.qty 1).isSome → (fieldOrDefault it.rate 0).isSome →
      (hsnString it.hsn).isSome →
      ∃ b, computeLine mode itype it = some b ∧ b.tax_percent = 0) := by
  refine ⟨?_, ?_, ?_⟩
  · intro hq hr ht hh
    have hq' : fieldOrDefault it.qty 1 = some 1 := by
      rcases hq with h | ⟨v, hv, hvf⟩
      · rw [h]
        rfl
      · rw [hv]
        simp [fieldOrDefault, hvf]
    obtain ⟨r, hr'⟩ := Option.isSome_iff_exists.1 hr
    obtain ⟨t, ht'⟩ := Option.isSome_iff_exists.1 ht
    obtain ⟨hs, hh'⟩ := Option.isSome_iff_exists.1 hh
    simp only [computeLine, hq', hr', ht', hh']
    exact ⟨_, rfl, rfl⟩
  · intro hr hq ht hh
    have hr' : fieldOrDefault it.rate 0 = some 0 := by
      rcases hr with h | ⟨v, hv, hvf⟩
      · rw [h]
        rfl
      · rw [hv]
        simp [fieldOrDefault, hvf]
    obtain ⟨q, hq'⟩ := Option.isSome_iff_exists.1 hq
    obtain ⟨t, ht'⟩ := Option.isSome_iff_exists.1 ht
    obtain ⟨hs, hh'⟩ := Option.isSome_iff_exists.1 hh
    simp only [computeLine, hq', hr', ht', hh']
    exact ⟨_, rfl, rfl⟩
  · intro ht hq hr hh
    have ht' : fieldOrDefault it.tax_rate 0 = some 0 := by
      rcases ht with h | ⟨v, hv, hvf⟩
      · rw [h]
        rfl
      · rw [hv]
        simp [fieldOrDefault, hvf]
    obtain ⟨q, hq'⟩ := Option.isSome_iff_exists.1 hq
    obtain ⟨r, hr'⟩ := Option.isSome_iff_exists.1 hr
    obtain ⟨hs, hh'⟩ := Option.isSome_iff_exists.1 hh
    simp only [computeLine, hq', hr', ht', hh']
    exact ⟨_, rfl, rfl⟩

/-- C1 witness: a stored qty 0 next to a normal rate 100 yields a
`LineBreakdown` with qty defaulted to 1, and a stored null rate next to a
normal qty 2 yields one with rate defaulted to 0. -/
theorem c1_witness :
    (∃ b, computeLine TaxMode.INTER InvoiceType.B2C c1WItem = some b ∧ b.qty = 1) ∧
    (∃ b, computeLine TaxMode.INTER InvoiceType.B2C c1RItem = some b ∧ b.rate = 0) :=
  ⟨(c1_theorem TaxMode.INTER InvoiceType.B2C c1WItem).1
      (Or.inr ⟨JVal.num 0, rfl, by decide⟩) (by decide) (by decide) (by decide),
    (c1_theorem TaxMode.INTER InvoiceType.B2C c1RItem).2.1
      (Or.inr ⟨JVal.null, rfl, rfl⟩) (by decide) (by decide) (by decide)⟩

/-- C2 counterexample: the claim says no input causes an uncaught exception,
explicitly including a null buyer GSTIN in the stored JSON fallback field.
With no customer record and `customer_gst` stored as JSON null, the view
calls `.strip()` on `None` and raises an uncaught `AttributeError` (modelled
by `none`). -/
theorem c2_counterexample :
    invoiceViewer (some "27AAAA0000A1Z5") none (some JVal.null) none none = none := by
  decide

/-- C2 (amended): the computation terminates with a renderable result
whenever the stored fallback buyer GSTIN (if consulted) is a string or
absent and every extracted item's numeric fields and HSN field coerce
without raising; a stored null fallback GSTIN or a truthy non-numeric
field raises an uncaught exception (see the counterexample). -/
theorem c2_theorem (bg cg : Option String) (fb : Option JVal) (ii ji : Option (List Item))
    (hfb : fb = none ∨ ∃ s, fb = some (JVal.str s))
    (hitems : ∀ it ∈ extractItems ii ji,
      (fieldOrDefault it.qty 1).isSome ∧ (fieldOrDefault it.rate 0).isSome ∧
      (fieldOrDefault it.tax_rate 0).isSome ∧ (hsnString it.hsn).isSome) :
    (invoiceViewer bg cg fb ii ji).isSome := by
  obtain ⟨buyer, hb⟩ := Option.isSome_iff_exists.1 (resolveBuyer_isSome cg fb hfb)
  have hc := computeInvoice_isSome (resolveSellerGst bg) buyer (extractItems ii ji)
    (fun it hit => computeLine_isSome _ _ it (hitems it hit).1 (hitems it hit).2.1
      (hitems it hit).2.2.1 (hitems it hit).2.2.2)
  obtain ⟨res, hres⟩ := Option.isSome_iff_exists.1 hc
  simp [invoiceViewer, hb, hres]

/-- C2 witness: the empty invoice with no GSTINs renders. -/
theorem c2_witness : (invoiceViewer none none none none none).isSome :=
  c2_theorem none none none none none (Or.inl rfl)
    (fun it hit => absurd hit (List.not_mem_nil it))

/-- C3 counterexample: the claim requires ASCII digit prefixes for INTRA.
Python's `str.isdigit` also accepts the superscript digit ², so two GSTINs
with the equal non-ASCII prefix "²²" are classified INTRA although the
spec's ASCII-digit condition fails. -/
theorem c3_counterexample :
    tax_mode "²²AAAA0000A1Z5" "²²BBBB1111B1Z6" = TaxMode.INTRA ∧
      ¬ specIntraCondition "²²AAAA0000A1Z5" "²²BBBB1111B1Z6" := by
  constructor
  · decide
  · unfold specIntraCondition
    decide

/-- C3 (amended): tax_mode is INTRA exactly when both GSTINs have length at
least 2, their two-character prefixes satisfy Python's Unicode `isdigit`
(which accepts non-ASCII digit characters such as superscripts, not only
ASCII digits), and the prefixes are equal; in every other case it is
INTER. -/
theorem c3_theorem (s b : String) :
    tax_mode s b = TaxMode.INTRA ↔
      (2 ≤ s.length ∧ pyStrIsdigit (s.take 2) = true ∧ 2 ≤ b.length ∧
        pyStrIsdigit (b.take 2) = true ∧ s.take 2 = b.take 2) := by
  rw [tax_mode_intra_iff]
  constructor
  · rintro ⟨p, hp1, hp2⟩
    obtain ⟨hs1, hs2, hs3⟩ := (gst_state_eq_some_iff s p).1 hp1
    obtain ⟨hb1, hb2, hb3⟩ := (gst_state_eq_some_iff b p).1 hp2
    exact ⟨hs1, hs2, hb1, hb2, by rw [← hs3, ← hb3]⟩
  · rintro ⟨hs1, hs2, hb1, hb2, he⟩
    exact ⟨s.take 2, (gst_state_eq_some_iff s (s.take 2)).2 ⟨hs1, hs2, rfl⟩,
      (gst_state_eq_some_iff b (s.take 2)).2 ⟨hb1, hb2, he⟩⟩

/-- C4: for every produced line breakdown, taxable_value is the half-up
rounding of qty × rate to two decimals, and tax_value is the half-up
rounding of taxable_value × tax_percent / 100 to two decimals. -/
theorem c4_theorem (mode : TaxMode) (itype : InvoiceType) (it : Item) (b : LineBreakdown)
    (h : computeLine mode itype it = some b) :
    b.taxable_value = roundHalfUp2 (b.qty * b.rate) ∧
    b.tax_value = roundHalfUp2 (b.taxable_value * b.tax_percent / 100) := by
  obtain ⟨h1, h2, -, -, -, -⟩ := computeLine_inv mode itype it b h
  exact ⟨h1, h2⟩

/-- C4 witness: the spec example qty 2, rate 100, tax 18 (taxable 200.00,
tax 36.00). -/
theorem c4_witness :
    c4Break.taxable_value = roundHalfUp2 (c4Break.qty * c4Break.rate) ∧
    c4Break.tax_value = roundHalfUp2 (c4Break.taxable_value * c4Break.tax_percent / 100) :=
  c4_theorem TaxMode.INTRA InvoiceType.B2B c4Item c4Break c4_comp

/-- C5: in INTRA mode cgst = sgst = round_half_up(tax_value / 2), igst = 0,
cgst + sgst is within 0.01 of tax_value and equals it exactly iff tax_value
has an even number of cents; in INTER mode igst = tax_value exactly and
cgst = sgst = 0. -/
theorem c5_theorem (mode : TaxMode) (itype : InvoiceType) (it : Item) (b : LineBreakdown)
    (h : computeLine mode itype it = some b) :
    (mode = TaxMode.INTRA →
      b.cgst = roundHalfUp2 (b.tax_value / 2) ∧ b.sgst = roundHalfUp2 (b.tax_value / 2) ∧
      b.igst = 0 ∧ |b.cgst + b.sgst - b.tax_value| ≤ 1 / 100 ∧
      (b.cgst + b.sgst = b.tax_value ↔ Even (centsOf b.tax_value))) ∧
    (mode = TaxMode.INTER → b.igst = b.tax_value ∧ b.cgst = 0 ∧ b.sgst = 0) := by
  obtain ⟨h1, h2, h3, h4, -, -⟩ := computeLine_inv mode itype it b h
  refine ⟨?_, h4⟩
  intro hm
  obtain ⟨hc, hs, hi⟩ := h3 hm
  obtain ⟨m, hmv⟩ : ∃ m : ℤ, b.tax_value = (m : ℚ) / 100 := by
    rw [h2]
    exact roundHalfUp2_exists_cent _
  obtain ⟨k, hk1, hk2, hk3, hk4⟩ := split_diff m
  have hsum : b.cgst + b.sgst - b.tax_value = (k : ℚ) / 100 := by
    rw [hc, hs, hmv]
    exact hk1
  have hce : centsOf b.tax_value = m := by rw [hmv, centsOf_cent]
  refine ⟨hc, hs, hi, ?_, ?_⟩
  · rw [hsum, abs_le]
    constructor
    · have hcast : ((-1 : ℤ) : ℚ) ≤ (k : ℚ) := by exact_mod_cast hk2
      push_cast at hcast
      linarith
    · have hcast : ((k : ℚ)) ≤ ((1 : ℤ) : ℚ) := by exact_mod_cast hk3
      push_cast at hcast
      linarith
  · rw [hce, ← hk4, ← sub_eq_zero, hsum]
    constructor
    · intro hdiv
      have h100 : ((k : ℚ)) = 0 := by
        field_simp at hdiv
        exact_mod_cast hdiv
      exact_mod_cast h100
    · intro hk0
      rw [hk0]
      norm_num

/-- C5 witness: qty 1, rate 50, tax 18 in INTRA mode (tax 9.00, split
4.50/4.50). -/
theorem c5_witness :
    c5Break.cgst = roundHalfUp2 (c5Break.tax_value / 2) ∧
    c5Break.sgst = roundHalfUp2 (c5Break.tax_value / 2) ∧ c5Break.igst = 0 ∧
    |c5Break.cgst + c5Break.sgst - c5Break.tax_value| ≤ 1 / 100 ∧
    (c5Break.cgst + c5Break.sgst = c5Break.tax_value ↔ Even (centsOf c5Break.tax_value)) :=
  (c5_theorem TaxMode.INTRA InvoiceType.B2B c5Item c5Break c5_comp).1 rfl

/-- C6: the five invoice totals are the exact sums of the corresponding
per-line fields, and the grand total is the half-even re-quantization of
total_taxable + total_tax, which is an identity because both summands lie
on the two-decimal grid. -/
theorem c6_theorem (seller buyer : String) (items : List Item) (res : InvoiceResult)
    (h : computeInvoice seller buyer items = some res) :
    res.total_taxable = (res.breakdown.map LineBreakdown.taxable_value).sum ∧
    res.total_tax = (res.breakdown.map LineBreakdown.tax_value).sum ∧
    res.total_cgst = (res.breakdown.map LineBreakdown.cgst).sum ∧
    res.total_sgst = (res.breakdown.map LineBreakdown.sgst).sum ∧
    res.total_igst = (res.breakdown.map LineBreakdown.igst).sum ∧
    res.grand_total = roundHalfEven2 (res.total_taxable + res.total_tax) ∧
    res.grand_total = res.total_taxable + res.total_tax := by
  unfold computeInvoice at h
  cases hp : processItems (tax_mode seller buyer) (invoice_type buyer) items {} with
  | none => simp [hp] at h
  | some p =>
    obtain ⟨bs, tot⟩ := p
    simp only [hp, Option.some.injEq] at h
    subst h
    obtain ⟨t1, t2, t3, t4, t5⟩ := processItems_totals _ _ items {} bs tot hp
    simp only [show ({} : Totals).total_taxable = 0 from rfl,
      show ({} : Totals).total_tax = 0 from rfl, show ({} : Totals).total_cgst = 0 from rfl,
      show ({} : Totals).total_sgst = 0 from rfl, show ({} : Totals).total_igst = 0 from rfl,
      zero_add] at t1 t2 t3 t4 t5
    have hmem := processItems_mem _ _ items {} bs tot hp
    have hcent1 : ∀ x ∈ bs.map LineBreakdown.taxable_value, ∃ m : ℤ, x = (m : ℚ) / 100 := by
      intro x hx
      obtain ⟨bb, hbb, hxe⟩ := List.mem_map.1 hx
      obtain ⟨it', hit', hcl⟩ := hmem bb hbb
      obtain ⟨hv, -, -, -, -, -⟩ := computeLine_inv _ _ it' bb hcl
      rw [← hxe, hv]
      exact roundHalfUp2_exists_cent _
    have hcent2 : ∀ x ∈ bs.map LineBreakdown.tax_value, ∃ m : ℤ, x = (m : ℚ) / 100 := by
      intro x hx
      obtain ⟨bb, hbb, hxe⟩ := List.mem_map.1 hx
      obtain ⟨it', hit', hcl⟩ := hmem bb hbb
      obtain ⟨-, hv, -, -, -, -⟩ := computeLine_inv _ _ it' bb hcl
      rw [← hxe, hv]
      exact roundHalfUp2_exists_cent _
    obtain ⟨m1, hm1⟩ := sum_cent_list _ hcent1
    obtain ⟨m2, hm2⟩ := sum_cent_list _ hcent2
    refine ⟨t1, t2, t3, t4, t5, rfl, ?_⟩
    show roundHalfEven2 (tot.total_taxable + tot.total_tax) = tot.total_taxable + tot.total_tax
    rw [t1, t2, hm1, hm2,
      show ((m1 : ℚ) / 100 + (m2 : ℚ) / 100) = ((m1 + m2 : ℤ) : ℚ) / 100 by push_cast; ring,
      roundHalfEven2_cent]

/-- C6 witness: one INTER line with taxable 200.00 and tax 36.00; the grand
total 236.00 equals the sum of the totals. -/
theorem c6_witness :
    c6Res.total_taxable = (c6Res.breakdown.map LineBreakdown.taxable_value).sum ∧
    c6Res.total_tax = (c6Res.breakdown.map LineBreakdown.tax_value).sum ∧
    c6Res.total_cgst = (c6Res.breakdown.map LineBreakdown.cgst).sum ∧
    c6Res.total_sgst = (c6Res.breakdown.map LineBreakdown.sgst).sum ∧
    c6Res.total_igst = (c6Res.breakdown.map LineBreakdown.igst).sum ∧
    c6Res.grand_total = roundHalfEven2 (c6Res.total_taxable + c6Res.total_tax) ∧
    c6Res.grand_total = c6Res.total_taxable + c6Res.total_tax :=
  c6_theorem "27AAAA0000A1Z5" "09BBBB1111B1Z6" [c4Item] c6Res c6_invoice_comp

/-- C7 counterexample: the claim counts ASCII digits, but the view uses
Python's Unicode `isdigit`.  For the HSN "²²²²" on a B2C invoice the view
counts four digits and raises no warning, while the spec's ASCII count is 0,
which is below the recommended 4 and would require a warning. -/
theorem c7_counterexample :
    (computeLine TaxMode.INTER InvoiceType.B2C c7Item).map LineBreakdown.hsn_warning
        = some false ∧
    (computeLine TaxMode.INTER InvoiceType.B2C c7Item).map LineBreakdown.hsn_recommended
        = some 4 ∧
    specHsnWarningAscii "²²²²" InvoiceType.B2C = true := by
  refine ⟨?_, ?_, by decide⟩
  · rw [c7_cex_comp]
    rfl
  · rw [c7_cex_comp]
    rfl

/-- C7 (amended): the recommended digit count is 6 for B2B and 4 for B2C,
and the warning fires exactly when the number of characters of the HSN that
satisfy Python's Unicode `isdigit` (not only ASCII digits) is below the
recommended count. -/
theorem c7_theorem (mode : TaxMode) (itype : InvoiceType) (it : Item) (b : LineBreakdown)
    (h : computeLine mode itype it = some b) :
    (itype = InvoiceType.B2B → b.hsn_recommended = 6) ∧
    (itype = InvoiceType.B2C → b.hsn_recommended = 4) ∧
    (b.hsn_warning = true ↔ (b.hsn.toList.filter pyIsdigit).length < b.hsn_recommended) := by
  obtain ⟨-, -, -, -, h5, h6⟩ := computeLine_inv mode itype it b h
  have hlen : (hsnDigits b.hsn).length = (b.hsn.toList.filter pyIsdigit).length := rfl
  refine ⟨?_, ?_, ?_⟩
  · intro hi
    rw [h5, hi]
    rfl
  · intro hi
    rw [h5, hi]
    rfl
  · rw [h5, ← hlen]
    exact h6

/-- C7 witness: the HSN "1234" on a B2C invoice: recommended 4, no
warning. -/
theorem c7_witness :
    (InvoiceType.B2C = InvoiceType.B2B → c7WBreak.hsn_recommended = 6) ∧
    (InvoiceType.B2C = InvoiceType.B2C → c7WBreak.hsn_recommended = 4) ∧
    (c7WBreak.hsn_warning = true ↔
      (c7WBreak.hsn.toList.filter pyIsdigit).length < c7WBreak.hsn_recommended) :=
  c7_theorem TaxMode.INTER InvoiceType.B2C c7WItem c7WBreak c7_w_comp

/-- C8: the buyer GSTIN is stripped at resolution, and the invoice type is
B2B exactly when the stripped buyer GSTIN is non-empty — whether it comes
from the customer record (truthy branch) or from the stored fallback
string. -/
theorem c8_theorem (raw : String) (fb : Option JVal) :
    (raw ≠ "" → resolveBuyerGst (some raw) fb = some (pyStrip raw)) ∧
    resolveBuyerGst none (some (JVal.str raw)) = some (pyStrip raw) ∧
    (invoice_type (pyStrip raw) = InvoiceType.B2B ↔ pyStrip raw ≠ "") := by
  refine ⟨?_, rfl, ?_⟩
  · intro h
    simp [resolveBuyerGst, h]
  · unfold invoice_type
    by_cases h : pyStrip raw ≠ ""
    · simp [h]
    · simp [h]

/-- C8 witness: the raw buyer GSTIN " 27ABC " strips to "27ABC" and yields
B2B. -/
theorem c8_witness :
    resolveBuyerGst (some " 27ABC ") none = some (pyStrip " 27ABC ") ∧
    (invoice_type (pyStrip " 27ABC ") = InvoiceType.B2B ↔ pyStrip " 27ABC " ≠ "") := by
  have h := c8_theorem " 27ABC " none
  exact ⟨h.1 (by decide), h.2.2⟩

/-- C9: for the empty item list the computation succeeds with an empty
breakdown and all-zero totals, including a zero grand total. -/
theorem c9_theorem (seller buyer : String) :
    computeInvoice seller buyer [] =
      some { invoice_type := invoice_type buyer, tax_mode := tax_mode seller buyer,
             breakdown := [], total_taxable := 0, total_tax := 0, total_cgst := 0,
             total_sgst := 0, total_igst := 0, grand_total := 0 } :=
  computeInvoice_nil seller buyer

/-- C10: a present but falsy qty (0, false, "", null) is treated as absent
and defaults to 1, so a stored quantity of exactly 0 yields taxable_value =
round_half_up(1 × rate); falsy rate and tax_rate values likewise default
to 0. -/
theorem c10_theorem (mode : TaxMode) (itype : InvoiceType) (it : Item) (v : JVal)
    (b : LineBreakdown) (hq : it.qty = some v) (hv : truthy v = false)
    (h : computeLine mode itype it = some b) :
    b.qty = 1 ∧ b.taxable_value = roundHalfUp2 (1 * b.rate) ∧
    (∀ w, it.rate = some w → truthy w = false → b.rate = 0) ∧
    (∀ w, it.tax_rate = some w → truthy w = false → b.tax_percent = 0) := by
  obtain ⟨f1, f2, f3, f4⟩ := computeLine_fields mode itype it b h
  obtain ⟨h1, -, -, -, -, -⟩ := computeLine_inv mode itype it b h
  have hq' : fieldOrDefault it.qty 1 = some 1 := by
    rw [hq]
    simp [fieldOrDefault, hv]
  have hbq : b.qty = 1 := by
    rw [hq'] at f1
    exact (Option.some.injEq _ _ ▸ f1).symm
  refine ⟨hbq, by rw [h1, hbq], ?_, ?_⟩
  · intro w hw hwf
    have : fieldOrDefault it.rate 0 = some 0 := by
      rw [hw]
      simp [fieldOrDefault, hwf]
    rw [this] at f2
    exact (Option.some.injEq _ _ ▸ f2).symm
  · intro w hw hwf
    have : fieldOrDefault it.tax_rate 0 = some 0 := by
      rw [hw]
      simp [fieldOrDefault, hwf]
    rw [this] at f3
    exact (Option.some.injEq _ _ ▸ f3).symm

/-- C10 witness: the item with stored qty 0 and rate 5: the breakdown has
qty 1 and taxable_value round_half_up(1 × 5) (not 0). -/
theorem c10_witness :
    c10Break.qty = 1 ∧ c10Break.taxable_value = roundHalfUp2 (1 * c10Break.rate) ∧
    (∀ w, c10Item.rate = some w → truthy w = false → c10Break.rate = 0) ∧
    (∀ w, c10Item.tax_rate = some w → truthy w = false → c10Break.tax_percent = 0) :=
  c10_theorem TaxMode.INTER InvoiceType.B2C c10Item (JVal.num 0) c10Break rfl (by decide)
    c10_comp
